import Mathlib

/-!
Shallow embedding of the chat-session persistence layer in
`src/azure_storage.py` (class `AzureStorageManager`).

JSON values exchanged with the stores are modelled by the inductive type
`Val` (Python values that `json.dumps`/`json.loads` handle here); the text
serialization round-trip of `json` is taken as faithful, so blobs store
`Val` trees directly.  The two Azure stores are modelled as association
lists inside `StorageState`; transient store failures (network errors that
the SDK raises) are injected through the `Env` record, and "not found"
conditions are derived from the state itself.  Python exceptions raised
while an operation builds data (KeyError on a missing dict key, TypeError
on slicing a non-sliceable value) are modelled with `Except Unit`.
External inputs (the UTC clock, `uuid.uuid4().hex`) are passed as explicit
string parameters.
-/

namespace AgustoStorage

/-- A Python/JSON value as handled by `azure_storage.py`. -/
inductive Val where
  | str (s : String)
  | int (n : Int)
  | bool (b : Bool)
  | null
  | list (xs : List Val)
  | dict (fields : List (String × Val))

/-- A message dict (`Dict[str, Any]`), modelled as an association list. -/
abbrev Msg := List (String × Val)

/-- Python slicing `v[:n]`: works on strings and lists, raises `TypeError`
otherwise. -/
def pySlice (n : Nat) : Val → Except Unit Val
  | .str s => .ok (.str (s.take n))
  | .list xs => .ok (.list (xs.take n))
  | _ => .error ()

/-- The loop predicate `msg.get('role') == 'user'` from
`save_chat_session`: true exactly when the `'role'` value is the string
`'user'` (a missing key gives `None`, and no other JSON value equals a
string in Python). -/
def isUserMsg (m : Msg) : Bool :=
  match m.lookup "role" with
  | some (Val.str s) => s == "user"
  | _ => false

/-- The title-from-messages loop of `save_chat_session` (lines 158-163):
start from "New Chat", replace with `msg.get('content', '')[:100]` of the
first message whose role is `'user'`. -/
def titleFromMessages (messages : List Msg) : Except Unit Val :=
  match messages.find? isUserMsg with
  | none => .ok (.str "New Chat")
  | some m => pySlice 100 ((m.lookup "content").getD (.str ""))

/-- Full title derivation of `save_chat_session` (lines 157-166): the loop
runs first, then `metadata['title']` overrides when present.  A `TypeError`
raised by the loop aborts before the override. -/
def deriveChatTitle (messages : List Msg) (metadata : Option (List (String × Val))) :
    Except Unit Val := do
  let base ← titleFromMessages messages
  match metadata.bind (List.lookup "title") with
  | some t => pure t
  | none => pure base

/-- `messages[-1]['content'][:200] if messages else ''` (line 176): a
missing `'content'` key raises `KeyError`. -/
def lastMessagePreview (messages : List Msg) : Except Unit Val :=
  match messages.getLast? with
  | none => .ok (.str "")
  | some m =>
    match m.lookup "content" with
    | none => .error ()
    | some v => pySlice 200 v

/-- The Table Storage entity written by `save_chat_session`
(lines 168-178). -/
structure Entity where
  partitionKey : String
  rowKey : String
  chatTitle : Val
  messageCount : Nat
  createdAt : String
  updatedAt : String
  searchMode : Val
  lastMessage : Val
  blobPath : String

/-- `SearchMode` attribute: `metadata.get('search_mode', 'auto') if metadata
else 'auto'` (line 175); an empty dict is falsy but then the lookup misses
anyway, so both branches give `'auto'`. -/
def deriveSearchMode (metadata : Option (List (String × Val))) : Val :=
  (metadata.bind (List.lookup "search_mode")).getD (.str "auto")

/-- Builds the index entity, propagating the Python exceptions that can be
raised while computing `ChatTitle` and `LastMessage`. -/
def buildEntity (chat_id user_id : String) (messages : List Msg)
    (metadata : Option (List (String × Val))) (createdAt updatedAt : String) :
    Except Unit Entity := do
  let title ← deriveChatTitle messages metadata
  let lastMsg ← lastMessagePreview messages
  pure { partitionKey := user_id
         rowKey := chat_id
         chatTitle := title
         messageCount := messages.length
         createdAt := createdAt
         updatedAt := updatedAt
         searchMode := deriveSearchMode metadata
         lastMessage := lastMsg
         blobPath := user_id ++ "/" ++ chat_id ++ ".json" }

/-- The `chat_data` dict serialized to the transcript blob
(lines 130-138). -/
def chatDataVal (chat_id user_id : String) (messages : List Msg)
    (createdAt updatedAt : String) (metadata : Option (List (String × Val))) : Val :=
  .dict [("chat_id", .str chat_id),
         ("user_id", .str user_id),
         ("messages", .list (messages.map .dict)),
         ("created_at", .str createdAt),
         ("updated_at", .str updatedAt),
         ("message_count", .int messages.length),
         ("metadata", .dict (metadata.getD []))]

/-- Transcript blob path `{user_id}/{chat_id}.json` (line 141). -/
def blobNameFor (chat_id user_id : String) : String :=
  user_id ++ "/" ++ chat_id ++ ".json"

/-- Blob `upload_blob(..., overwrite=True)`: insert-or-replace by path. -/
def blobUpsert (name : String) (doc : Val) (blobs : List (String × Val)) :
    List (String × Val) :=
  (name, doc) :: blobs.filter (fun p => p.1 ≠ name)

/-- Table `upsert_entity`: insert-or-replace keyed by
(PartitionKey, RowKey). -/
def tableUpsert (e : Entity) (table : List Entity) : List Entity :=
  e :: table.filter (fun x => ¬(x.partitionKey = e.partitionKey ∧ x.rowKey = e.rowKey))

/-- The two Azure stores: blob container (path ↦ JSON document) and the
index table. -/
structure StorageState where
  blobs : List (String × Val)
  table : List Entity

/-- Transient-failure injection: `true` means the corresponding SDK call
succeeds (no network/service exception); "not found" is not injected here,
it is read off the state. -/
structure Env where
  blobPutOk : Bool
  blobGetOk : Bool
  blobDeleteOk : Bool
  tableUpsertOk : Bool
  tableDeleteOk : Bool
  tableQueryOk : Bool

/-- An `Env` in which no transient failure occurs. -/
def envOK : Env := ⟨true, true, true, true, true, true⟩

/-- `generate_chat_id` (line 105):
`f"chat_{uuid.uuid4().hex[:12]}_{datetime.now().strftime('%Y%m%d%H%M%S')}"`.
The 32-character random hex string and the 14-digit compact timestamp are
external inputs. -/
def generate_chat_id (uuidHex : String) (nowCompact : String) : String :=
  "chat_" ++ uuidHex.take 12 ++ "_" ++ nowCompact

/-- `save_chat_session` (lines 107-187).  `createdNow`/`updatedNow` are the
two separate `datetime.now(timezone.utc).isoformat()` calls of lines
134-135.  Returns the Python boolean result and the post state. -/
def save_chat_session (enabled : Bool) (env : Env) (st : StorageState)
    (chat_id user_id : String) (messages : List Msg)
    (metadata : Option (List (String × Val)))
    (createdNow updatedNow : String) : Bool × StorageState :=
  if enabled = false then (false, st)
  else
    let chat_data := chatDataVal chat_id user_id messages createdNow updatedNow metadata
    let blob_name := blobNameFor chat_id user_id
    if env.blobPutOk = false then (false, st)
    else
      let st1 : StorageState := { st with blobs := blobUpsert blob_name chat_data st.blobs }
      match buildEntity chat_id user_id messages metadata createdNow updatedNow with
      | .error _ => (false, st1)
      | .ok entity =>
        if env.tableUpsertOk = false then (false, st1)
        else (true, { st1 with table := tableUpsert entity st1.table })

/-- `load_chat_session` (lines 189-223): reads the transcript blob;
"not found" and any other failure both yield `None`. -/
def load_chat_session (enabled : Bool) (env : Env) (st : StorageState)
    (chat_id user_id : String) : Option Val :=
  if enabled = false then none
  else if env.blobGetOk = false then none
  else st.blobs.lookup (blobNameFor chat_id user_id)

/-- Python code-point comparison `<` on character lists (strings compare
lexicographically by Unicode code point). -/
def strLtb : List Char → List Char → Bool
  | _, [] => false
  | [], _ :: _ => true
  | a :: as, b :: bs =>
    if a < b then true
    else if b < a then false
    else strLtb as bs

/-- Python string `a < b`. -/
def pyStrLt (a b : String) : Bool := strLtb a.data b.data

/-- One record of the list returned by `list_user_chats`
(lines 256-264). -/
structure ChatSummary where
  chat_id : String
  title : Val
  message_count : Nat
  created_at : String
  updated_at : String
  search_mode : Val
  last_message : Val

/-- Projection of a stored entity to the dict appended by
`list_user_chats`; entities written by `save_chat_session` always carry all
selected attributes, so the `.get` defaults never fire. -/
def entityToSummary (e : Entity) : ChatSummary :=
  { chat_id := e.rowKey
    title := e.chatTitle
    message_count := e.messageCount
    created_at := e.createdAt
    updated_at := e.updatedAt
    search_mode := e.searchMode
    last_message := e.lastMessage }

/-- Stable insertion step of the descending sort: `x` (earlier in the
original list) is placed before the first element whose key does not
exceed its key, as CPython's stable `list.sort(key=..., reverse=True)`
does. -/
def insertDesc (x : ChatSummary) : List ChatSummary → List ChatSummary
  | [] => [x]
  | y :: ys =>
    if pyStrLt x.updated_at y.updated_at then y :: insertDesc x ys
    else x :: y :: ys

/-- `chats.sort(key=lambda x: x['updated_at'], reverse=True)` (line 268):
stable sort, `updated_at` descending under Python string comparison. -/
def sortDesc : List ChatSummary → List ChatSummary
  | [] => []
  | x :: xs => insertDesc x (sortDesc xs)

/-- `list_user_chats` (lines 225-275): partition query, truncation of the
entity stream to `limit` during iteration (lines 251-265), then the
descending sort of line 268. -/
def list_user_chats (enabled : Bool) (env : Env) (st : StorageState)
    (user_id : String) (limit : Nat) : List ChatSummary :=
  if enabled = false then []
  else if env.tableQueryOk = false then []
  else
    let entities := st.table.filter (fun e => e.partitionKey = user_id)
    let chats := (entities.take limit).map entityToSummary
    sortDesc chats

/-- `delete_chat_session` (lines 277-314): blob delete first (raises
`ResourceNotFoundError` when absent), then the table entity delete (the
Indexed Record Store contract reports `NotFound` for a missing row); either
`NotFound` is caught and reported as `False`. -/
def delete_chat_session (enabled : Bool) (env : Env) (st : StorageState)
    (chat_id user_id : String) : Bool × StorageState :=
  if enabled = false then (false, st)
  else
    let blob_name := blobNameFor chat_id user_id
    if env.blobDeleteOk = false then (false, st)
    else
      match st.blobs.lookup blob_name with
      | none => (false, st)
      | some _ =>
        let st1 : StorageState := { st with blobs := st.blobs.filter (fun p => p.1 ≠ blob_name) }
        if env.tableDeleteOk = false then (false, st1)
        else if st1.table.any (fun e => e.partitionKey = user_id ∧ e.rowKey = chat_id) then
          (true, { st1 with
            table := st1.table.filter (fun e => ¬(e.partitionKey = user_id ∧ e.rowKey = chat_id)) })
        else (false, st1)

/-- `log_query` (lines 316-376): fire-and-forget blob write of one
query-log entry under `logs/{date}/{chat_id}_{time}.json`. -/
def log_query (enabled : Bool) (env : Env) (st : StorageState)
    (chat_id user_id userQuery responseText search_mode : String)
    (filters : Option (List (String × Val))) (sources : Option (List Val))
    (ts dateStr timeStr : String) : Bool × StorageState :=
  if enabled = false then (false, st)
  else
    let entry : Val := .dict [("timestamp", .str ts),
                              ("chat_id", .str chat_id),
                              ("user_id", .str user_id),
                              ("query", .str userQuery),
                              ("response", .str responseText),
                              ("search_mode", .str search_mode),
                              ("filters", .dict (filters.getD [])),
                              ("sources", .list (sources.getD []))]
    let blob_name := "logs/" ++ dateStr ++ "/" ++ chat_id ++ "_" ++ timeStr ++ ".json"
    if env.blobPutOk = false then (false, st)
    else (true, { st with blobs := blobUpsert blob_name entry st.blobs })

/-- Dict field access on a `Val`. -/
def dictGet (k : String) : Val → Option Val
  | .dict fields => fields.lookup k
  | _ => none

end AgustoStorage

set_option maxRecDepth 10000

namespace AgustoStorage

theorem strLtb_nil_right (as : List Char) : strLtb as [] = false := by
  cases as <;> rfl

theorem strLtb_asymm : ∀ as bs : List Char, strLtb as bs = true → strLtb bs as = false := by
  intro as
  induction as with
  | nil =>
    intro bs h
    cases bs with
    | nil => simp [strLtb] at h
    | cons b bs => simp [strLtb]
  | cons a as ih =>
    intro bs h
    cases bs with
    | nil => simp [strLtb_nil_right] at h
    | cons b bs =>
      simp only [strLtb] at h ⊢
      by_cases hab : a < b
      · have hba : ¬ b < a := lt_asymm hab
        simp [hab, hba]
      · by_cases hba : b < a
        · simp [hab, hba] at h
        · simp only [hab, hba, if_false] at h ⊢
          exact ih bs h

theorem strLtb_neg_trans :
    ∀ as bs cs : List Char, strLtb as bs = false → strLtb bs cs = false →
      strLtb as cs = false := by
  intro as
  induction as with
  | nil =>
    intro bs cs h1 h2
    cases bs with
    | nil =>
      cases cs with
      | nil => rfl
      | cons c cs => simp [strLtb] at h2
    | cons b bs => simp [strLtb] at h1
  | cons a as ih =>
    intro bs cs h1 h2
    cases cs with
    | nil => exact strLtb_nil_right _
    | cons c cs =>
      cases bs with
      | nil => simp [strLtb] at h2
      | cons b bs =>
        simp only [strLtb] at h1 h2 ⊢
        by_cases hab : a < b
        · simp [hab] at h1
        · by_cases hbc : b < c
          · simp [hbc] at h2
          · have hba : b ≤ a := le_of_not_lt hab
            have hcb : c ≤ b := le_of_not_lt hbc
            have hca : c ≤ a := le_trans hcb hba
            have hac : ¬ a < c := not_lt_of_ge hca
            by_cases hca2 : c < a
            · simp [hac, hca2]
            · have hac2 : a ≤ c := le_of_not_lt hca2
              have hab2 : a ≤ b := le_trans hac2 hcb
              have hbeqa : b = a := le_antisymm hba hab2
              have hba2 : ¬ b < a := by rw [hbeqa]; exact lt_irrefl a
              have h1r : strLtb as bs = false := by
                simpa [hab, hba2] using h1
              have hcb3 : ¬ c < b := by
                intro hlt
                exact absurd (lt_of_lt_of_le hlt hba) hca2
              have h2r : strLtb bs cs = false := by
                simpa [hbc, hcb3] using h2
              simp [hac, hca2, ih bs cs h1r h2r]

/-- `a.updated_at ≥ b.updated_at` under Python string comparison. -/
def summGE (a b : ChatSummary) : Prop := pyStrLt a.updated_at b.updated_at = false

theorem insertDesc_perm (x : ChatSummary) :
    ∀ l : List ChatSummary, (insertDesc x l).Perm (x :: l) := by
  intro l
  induction l with
  | nil => exact List.Perm.refl _
  | cons y ys ih =>
    simp only [insertDesc]
    by_cases h : pyStrLt x.updated_at y.updated_at = true
    · simp only [h, if_true]
      exact ((ih.cons y).trans (List.Perm.swap x y ys))
    · simp [h]

theorem sortDesc_perm : ∀ l : List ChatSummary, (sortDesc l).Perm l := by
  intro l
  induction l with
  | nil => exact List.Perm.refl _
  | cons x xs ih =>
    simp only [sortDesc]
    exact (insertDesc_perm x (sortDesc xs)).trans (ih.cons x)

theorem insertDesc_pairwise (x : ChatSummary) (l : List ChatSummary)
    (hl : l.Pairwise summGE) : (insertDesc x l).Pairwise summGE := by
  induction l with
  | nil => simp [insertDesc, List.Pairwise]
  | cons y ys ih =>
    rcases List.pairwise_cons.mp hl with ⟨hy, hys⟩
    simp only [insertDesc]
    by_cases h : pyStrLt x.updated_at y.updated_at = true
    · simp only [h, if_true]
      refine List.pairwise_cons.mpr ⟨?_, ih hys⟩
      intro z hz
      have hz2 : z = x ∨ z ∈ ys := by
        have := (insertDesc_perm x ys).mem_iff.mp hz
        simpa using this
      rcases hz2 with rfl | hz2
      · exact strLtb_asymm _ _ h
      · exact hy z hz2
    · have hxy : pyStrLt x.updated_at y.updated_at = false := by
        simpa using h
      simp only [h, if_false]
      refine List.pairwise_cons.mpr ⟨?_, hl⟩
      intro z hz
      rcases List.mem_cons.mp hz with rfl | hz2
      · exact hxy
      · exact strLtb_neg_trans _ _ _ hxy (hy z hz2)

theorem sortDesc_pairwise : ∀ l : List ChatSummary, (sortDesc l).Pairwise summGE := by
  intro l
  induction l with
  | nil => simp [sortDesc, List.Pairwise]
  | cons x xs ih => exact insertDesc_pairwise x (sortDesc xs) ih

end AgustoStorage

namespace AgustoStorage

theorem lookup_blobUpsert_self (name : String) (doc : Val) (blobs : List (String × Val)) :
    (blobUpsert name doc blobs).lookup name = some doc := by
  simp [blobUpsert, List.lookup]

theorem lookup_filter_out (name : String) (blobs : List (String × Val)) :
    (blobs.filter (fun p => p.1 ≠ name)).lookup name = none := by
  induction blobs with
  | nil => rfl
  | cons p ps ih =>
    obtain ⟨k, v⟩ := p
    by_cases h : k = name
    · rw [List.filter_cons_of_neg (by simp [h])]
      exact ih
    · rw [List.filter_cons_of_pos (by simp [h])]
      have hk : (name == k) = false := by
        simp [Ne.symm h]
      simp only [List.lookup, hk]
      exact ih

/-- Destructor for a successful `save_chat_session`: both store calls
succeeded, the entity build succeeded, and the final state is the blob
upsert followed by the table upsert. -/
theorem save_true_elim (env : Env) (st : StorageState) (cid uid : String)
    (msgs : List Msg) (md : Option (List (String × Val))) (cN uN : String)
    (h : (save_chat_session true env st cid uid msgs md cN uN).1 = true) :
    env.blobPutOk = true ∧ env.tableUpsertOk = true ∧
      ∃ e, buildEntity cid uid msgs md cN uN = .ok e ∧
        save_chat_session true env st cid uid msgs md cN uN =
          (true, ⟨blobUpsert (blobNameFor cid uid) (chatDataVal cid uid msgs cN uN md) st.blobs,
                  tableUpsert e st.table⟩) := by
  by_cases hbp : env.blobPutOk = false
  · simp [save_chat_session, hbp] at h
  · replace hbp : env.blobPutOk = true := by simpa using hbp
    cases hbe : buildEntity cid uid msgs md cN uN with
    | error err => simp [save_chat_session, hbp, hbe] at h
    | ok e =>
      by_cases htu : env.tableUpsertOk = false
      · simp [save_chat_session, hbp, hbe, htu] at h
      · replace htu : env.tableUpsertOk = true := by simpa using htu
        refine ⟨hbp, htu, e, rfl, ?_⟩
        simp [save_chat_session, hbp, hbe, htu]

end AgustoStorage

namespace AgustoStorage

/-- **C4**: with the subsystem disabled (`enabled = false`), every
operation returns its defined disabled result — `save` false, `load`
absent, `list` empty, `delete` false, `log_query` false — for all
arguments, leaving both stores untouched (so no store I/O is attempted)
and raising nothing. -/
theorem disabled_operations_noop (env : Env) (st : StorageState)
    (cid uid userQuery responseText sm ts d t cN uN : String)
    (msgs : List Msg) (md filters : Option (List (String × Val)))
    (sources : Option (List Val)) (limit : Nat) :
    save_chat_session false env st cid uid msgs md cN uN = (false, st) ∧
    load_chat_session false env st cid uid = none ∧
    list_user_chats false env st uid limit = [] ∧
    delete_chat_session false env st cid uid = (false, st) ∧
    log_query false env st cid uid userQuery responseText sm filters sources ts d t =
      (false, st) :=
  ⟨rfl, rfl, rfl, rfl, rfl⟩

/-- **C2, counterexample**: the identifier produced at second `...01` of a
day compares lexically *greater* than the one produced a second later
(the random hex component precedes the timestamp, so it dominates the
string comparison), and two distinct 32-character random hex values that
agree on their first 12 characters yield the *same* identifier — so the
random component carries at most 48 bits, not the claimed 96. -/
theorem generate_chat_id_claim_cex :
    pyStrLt "20250101000001" "20250101000002" = true ∧
    pyStrLt (generate_chat_id "00000000000000000000000000000000" "20250101000002")
        (generate_chat_id "ffffffffffffffffffffffffffffffff" "20250101000001") = true ∧
    generate_chat_id "00000000000000000000000000000000" "20250101000001" =
      generate_chat_id "000000000000ffffffffffffffffffff" "20250101000001" ∧
    "00000000000000000000000000000000" ≠ "000000000000ffffffffffffffffffff" :=
  ⟨rfl, rfl, rfl, by decide⟩

/-- **C2, amended**: `generate_chat_id` returns
`"chat_" ++ (first 12 hex characters of the random component) ++ "_" ++
(seconds-resolution timestamp)`; the identifier depends on only the first
12 hex characters (48 bits) of the random input, and because the random
component precedes the timestamp the identifiers are not lexically
ordered by creation time. -/
theorem generate_chat_id_structure (hex1 hex2 ts : String)
    (h : hex1.take 12 = hex2.take 12) :
    generate_chat_id hex1 ts = generate_chat_id hex2 ts ∧
    generate_chat_id hex1 ts = "chat_" ++ hex1.take 12 ++ "_" ++ ts := by
  constructor
  · unfold generate_chat_id
    rw [h]
  · rfl

/-- Witness for the amended C2 theorem at concrete inputs. -/
theorem generate_chat_id_structure_witness :
    generate_chat_id "abcdef01234567899999999999999999" "20250101120000" =
      generate_chat_id "abcdef012345678900000000000000aa" "20250101120000" ∧
    generate_chat_id "abcdef01234567899999999999999999" "20250101120000" =
      "chat_" ++ ("abcdef01234567899999999999999999" : String).take 12 ++ "_" ++ "20250101120000" :=
  generate_chat_id_structure "abcdef01234567899999999999999999"
    "abcdef012345678900000000000000aa" "20250101120000" rfl

/-- **C1, counterexample**: with two index rows for user `"u"` — row `"a"`
updated in 2024 appearing first in the store's result stream and row `"b"`
updated in 2025 — `list_user_chats` with `limit = 1` returns the *older*
record `"a"`: the code truncates the entity stream to `limit` during
iteration *before* sorting, so the result is not the `limit` most recently
updated sessions. -/
theorem list_user_chats_claim_cex :
    list_user_chats true envOK
        ⟨[], [⟨"u", "a", .str "t1", 1, "c1", "2024-06-01T00:00:00+00:00", .str "auto", .str "l1", "u/a.json"⟩,
              ⟨"u", "b", .str "t2", 2, "c2", "2025-06-01T00:00:00+00:00", .str "auto", .str "l2", "u/b.json"⟩]⟩
        "u" 1 =
      [⟨"a", .str "t1", 1, "c1", "2024-06-01T00:00:00+00:00", .str "auto", .str "l1"⟩] ∧
    pyStrLt "2024-06-01T00:00:00+00:00" "2025-06-01T00:00:00+00:00" = true :=
  ⟨rfl, rfl⟩

/-- **C1, amended**: `list_user_chats` queries the partition of `user_id`,
truncates the store's result stream to the first `limit` records *before*
sorting, and returns exactly those records sorted by `updated_at`
descending — a permutation of the first `limit` partition records, not
necessarily the most recently updated ones. -/
theorem list_user_chats_truncate_then_sort (env : Env) (st : StorageState)
    (user_id : String) (limit : Nat) (hq : env.tableQueryOk = true) :
    (list_user_chats true env st user_id limit).Perm
        (((st.table.filter (fun e => e.partitionKey = user_id)).take limit).map
          entityToSummary) ∧
    (list_user_chats true env st user_id limit).Pairwise summGE := by
  unfold list_user_chats
  simp only [hq]
  simp only [show (true = false) = False by simp, show (true = (false : Bool)) = False by simp]
  exact ⟨sortDesc_perm _, sortDesc_pairwise _⟩

/-- Witness for the amended C1 theorem at a concrete store state. -/
theorem list_user_chats_truncate_then_sort_witness :
    (list_user_chats true envOK
        ⟨[], [⟨"u", "a", .str "t1", 1, "c1", "2024-06-01T00:00:00+00:00", .str "auto", .str "l1", "u/a.json"⟩]⟩
        "u" 3).Perm
      [⟨"a", .str "t1", 1, "c1", "2024-06-01T00:00:00+00:00", .str "auto", .str "l1"⟩] ∧
    (list_user_chats true envOK
        ⟨[], [⟨"u", "a", .str "t1", 1, "c1", "2024-06-01T00:00:00+00:00", .str "auto", .str "l1", "u/a.json"⟩]⟩
        "u" 3).Pairwise summGE :=
  list_user_chats_truncate_then_sort envOK
    ⟨[], [⟨"u", "a", .str "t1", 1, "c1", "2024-06-01T00:00:00+00:00", .str "auto", .str "l1", "u/a.json"⟩]⟩
    "u" 3 rfl

/-- **C7**: for every user and limit, `list_user_chats` returns at most
`limit` records, each the projection of a stored index row of the
`user_id` partition, and the returned sequence is pairwise (hence
consecutively) non-increasing in `updated_at` under Python string
comparison. -/
theorem list_user_chats_bounded_partition_sorted (enabled : Bool) (env : Env)
    (st : StorageState) (user_id : String) (limit : Nat) :
    (list_user_chats enabled env st user_id limit).length ≤ limit ∧
    (∀ s ∈ list_user_chats enabled env st user_id limit,
        ∃ e, e ∈ st.table ∧ e.partitionKey = user_id ∧ entityToSummary e = s) ∧
    (list_user_chats enabled env st user_id limit).Pairwise summGE := by
  by_cases he : enabled = false
  · subst he
    simp [list_user_chats, List.Pairwise]
  · replace he : enabled = true := by simpa using he
    subst he
    by_cases hq : env.tableQueryOk = false
    · simp [list_user_chats, hq, List.Pairwise]
    · replace hq : env.tableQueryOk = true := by simpa using hq
      have hperm := (list_user_chats_truncate_then_sort env st user_id limit hq).1
      refine ⟨?_, ?_, (list_user_chats_truncate_then_sort env st user_id limit hq).2⟩
      · rw [hperm.length_eq, List.length_map, List.length_take]
        exact min_le_left _ _
      · intro s hs
        have hs2 := hperm.mem_iff.mp hs
        rcases List.mem_map.mp hs2 with ⟨e, he2, rfl⟩
        have he3 : e ∈ st.table.filter (fun e => e.partitionKey = user_id) :=
          List.take_subset _ _ he2
        rcases List.mem_filter.mp he3 with ⟨he4, he5⟩
        exact ⟨e, he4, by simpa using he5, rfl⟩

end AgustoStorage

namespace AgustoStorage

/-- Destructor for a successful entity build: the entity's fields are the
values `save_chat_session` computes. -/
theorem buildEntity_ok_elim (cid uid : String) (msgs : List Msg)
    (md : Option (List (String × Val))) (cN uN : String) (e : Entity)
    (h : buildEntity cid uid msgs md cN uN = .ok e) :
    ∃ title lastMsg,
      deriveChatTitle msgs md = .ok title ∧
      lastMessagePreview msgs = .ok lastMsg ∧
      e = { partitionKey := uid
            rowKey := cid
            chatTitle := title
            messageCount := msgs.length
            createdAt := cN
            updatedAt := uN
            searchMode := deriveSearchMode md
            lastMessage := lastMsg
            blobPath := uid ++ "/" ++ cid ++ ".json" } := by
  unfold buildEntity at h
  cases ht : deriveChatTitle msgs md with
  | error err =>
    cases err
    rw [ht] at h
    simp only [Bind.bind, Except.bind] at h
    exact Except.noConfusion h
  | ok title =>
    rw [ht] at h
    cases hl : lastMessagePreview msgs with
    | error err =>
      cases err
      rw [hl] at h
      simp only [Bind.bind, Except.bind, Functor.map, Except.map] at h
      exact Except.noConfusion h
    | ok lastMsg =>
      rw [hl] at h
      simp only [Bind.bind, Except.bind, Functor.map, Except.map, pure] at h
      injection h with h2
      exact ⟨title, lastMsg, rfl, rfl, h2.symm⟩

/-- **C3**: when the subsystem is enabled and both store writes succeed,
`save_chat_session` followed by `load_chat_session` with the same
`chat_id` and `user_id` returns a chat document whose `messages` field is
structurally equal to the saved messages sequence. -/
theorem save_then_load_roundtrip (env : Env) (st : StorageState) (cid uid : String)
    (msgs : List Msg) (md : Option (List (String × Val))) (cN uN : String)
    (hget : env.blobGetOk = true)
    (hsave : (save_chat_session true env st cid uid msgs md cN uN).1 = true) :
    ∃ v, load_chat_session true env
          (save_chat_session true env st cid uid msgs md cN uN).2 cid uid = some v ∧
        dictGet "messages" v = some (.list (msgs.map .dict)) := by
  rcases save_true_elim env st cid uid msgs md cN uN hsave with ⟨hbp, htu, e, hbe, heq⟩
  refine ⟨chatDataVal cid uid msgs cN uN md, ?_, ?_⟩
  · rw [heq]
    simp [load_chat_session, hget, lookup_blobUpsert_self]
  · rfl

/-- Witness for the C3 theorem: a concrete save of one user message
followed by a load. -/
theorem save_then_load_roundtrip_witness :
    ∃ v, load_chat_session true envOK
          (save_chat_session true envOK ⟨[], []⟩ "c1" "u1"
            [[("role", Val.str "user"), ("content", Val.str "hi")]] none "T1" "T2").2
          "c1" "u1" = some v ∧
        dictGet "messages" v =
          some (.list [.dict [("role", Val.str "user"), ("content", Val.str "hi")]]) :=
  save_then_load_roundtrip envOK ⟨[], []⟩ "c1" "u1"
    [[("role", Val.str "user"), ("content", Val.str "hi")]] none "T1" "T2" rfl rfl

/-- **C5**: a failed blob write makes `save_chat_session` return `False`
with the state (hence the index table) untouched — the index upsert is
never attempted; a failure while building the index record, or a failed
index upsert, also yields `False`, leaving the table unchanged; the model
is a total function, so no exception reaches the caller. -/
theorem save_failure_behavior (env : Env) (st : StorageState) (cid uid : String)
    (msgs : List Msg) (md : Option (List (String × Val))) (cN uN : String) :
    (env.blobPutOk = false →
        save_chat_session true env st cid uid msgs md cN uN = (false, st)) ∧
    (buildEntity cid uid msgs md cN uN = .error () →
        (save_chat_session true env st cid uid msgs md cN uN).1 = false ∧
        (save_chat_session true env st cid uid msgs md cN uN).2.table = st.table) ∧
    (env.tableUpsertOk = false →
        (save_chat_session true env st cid uid msgs md cN uN).1 = false ∧
        (save_chat_session true env st cid uid msgs md cN uN).2.table = st.table) := by
  refine ⟨?_, ?_, ?_⟩
  · intro hbp
    simp [save_chat_session, hbp]
  · intro hbe
    by_cases hbp : env.blobPutOk = false
    · simp [save_chat_session, hbp]
    · replace hbp : env.blobPutOk = true := by simpa using hbp
      simp [save_chat_session, hbp, hbe]
  · intro htu
    by_cases hbp : env.blobPutOk = false
    · simp [save_chat_session, hbp]
    · replace hbp : env.blobPutOk = true := by simpa using hbp
      cases hbe : buildEntity cid uid msgs md cN uN with
      | error err => cases err; simp [save_chat_session, hbp, hbe]
      | ok e => simp [save_chat_session, hbp, hbe, htu]

/-- Witness for the C5 theorem: with the blob write failing, a concrete
save returns `False` and leaves the state unchanged. -/
theorem save_failure_behavior_witness :
    save_chat_session true ⟨false, true, true, true, true, true⟩ ⟨[], []⟩ "c1" "u1"
      [] none "T1" "T2" = (false, ⟨[], []⟩) :=
  (save_failure_behavior ⟨false, true, true, true, true, true⟩ ⟨[], []⟩ "c1" "u1"
    [] none "T1" "T2").1 rfl

end AgustoStorage

namespace AgustoStorage

/-- Destructor for a successful title derivation: `metadata['title']`
overrides when present, else the loop result stands. -/
theorem deriveChatTitle_ok_elim (msgs : List Msg) (md : Option (List (String × Val)))
    (title : Val) (h : deriveChatTitle msgs md = .ok title) :
    (∀ t, md.bind (List.lookup "title") = some t → title = t) ∧
    (md.bind (List.lookup "title") = none → titleFromMessages msgs = .ok title) := by
  unfold deriveChatTitle at h
  cases hbase : titleFromMessages msgs with
  | error err =>
    rw [hbase] at h
    simp only [Bind.bind, Except.bind] at h
    exact Except.noConfusion h
  | ok base =>
    rw [hbase] at h
    simp only [Bind.bind, Except.bind] at h
    constructor
    · intro t hmd
      rw [hmd] at h
      simp only [pure, Except.pure] at h
      injection h with h2
      exact h2.symm
    · intro hmd
      rw [hmd] at h
      simp only [pure, Except.pure] at h
      injection h with h2
      rw [h2]

theorem titleFromMessages_user_content (msgs : List Msg) (m : Msg) (c : String)
    (hfind : msgs.find? isUserMsg = some m) (hc : m.lookup "content" = some (.str c)) :
    titleFromMessages msgs = .ok (.str (c.take 100)) := by
  simp [titleFromMessages, hfind, hc, pySlice]

theorem titleFromMessages_no_user (msgs : List Msg)
    (hfind : msgs.find? isUserMsg = none) :
    titleFromMessages msgs = .ok (.str "New Chat") := by
  simp [titleFromMessages, hfind]

/-- **C6**: for a save that stores an index record, the record's title is
`metadata['title']` when that key is present (whatever the messages are);
otherwise the content of the first message whose role is `'user'`,
truncated to 100 characters; otherwise `"New Chat"` when no user message
exists. -/
theorem save_title_rule (env : Env) (st : StorageState) (cid uid : String)
    (msgs : List Msg) (md : Option (List (String × Val))) (cN uN : String) (e : Entity)
    (hbp : env.blobPutOk = true) (htu : env.tableUpsertOk = true)
    (hent : buildEntity cid uid msgs md cN uN = .ok e) :
    (save_chat_session true env st cid uid msgs md cN uN).1 = true ∧
    (save_chat_session true env st cid uid msgs md cN uN).2.table.head? = some e ∧
    (∀ t, md.bind (List.lookup "title") = some t → e.chatTitle = t) ∧
    (md.bind (List.lookup "title") = none →
        (∀ m c, msgs.find? isUserMsg = some m → m.lookup "content" = some (.str c) →
            e.chatTitle = .str (c.take 100)) ∧
        (msgs.find? isUserMsg = none → e.chatTitle = .str "New Chat")) := by
  rcases buildEntity_ok_elim cid uid msgs md cN uN e hent with ⟨title, lastMsg, ht, hl, rfl⟩
  have helim := deriveChatTitle_ok_elim msgs md title ht
  refine ⟨?_, ?_, ?_, ?_⟩
  · simp [save_chat_session, hbp, hent, htu]
  · simp [save_chat_session, hbp, hent, htu, tableUpsert]
  · intro t hmd
    simpa using helim.1 t hmd
  · intro hmd
    have hbase := helim.2 hmd
    constructor
    · intro m c hfind hc
      have := titleFromMessages_user_content msgs m c hfind hc
      rw [this] at hbase
      injection hbase with h2
      simpa using h2.symm
    · intro hfind
      have := titleFromMessages_no_user msgs hfind
      rw [this] at hbase
      injection hbase with h2
      simpa using h2.symm

/-- Witness for the C6 theorem: metadata `{'title': 'Custom'}` overrides a
user message content. -/
theorem save_title_rule_witness :
    (save_chat_session true envOK ⟨[], []⟩ "c1" "u1"
        [[("role", Val.str "user"), ("content", Val.str "What are the risks?")]]
        (some [("title", Val.str "Custom")]) "T1" "T2").1 = true ∧
    ((some [("title", Val.str "Custom")] : Option (List (String × Val))).bind
        (List.lookup "title") = some (Val.str "Custom") →
      (⟨"u1", "c1", Val.str "Custom", 1, "T1", "T2", Val.str "auto",
        Val.str "What are the risks?", "u1/c1.json"⟩ : Entity).chatTitle = Val.str "Custom") :=
  ⟨(save_title_rule envOK ⟨[], []⟩ "c1" "u1"
      [[("role", Val.str "user"), ("content", Val.str "What are the risks?")]]
      (some [("title", Val.str "Custom")]) "T1" "T2"
      ⟨"u1", "c1", Val.str "Custom", 1, "T1", "T2", Val.str "auto",
        Val.str "What are the risks?", "u1/c1.json"⟩ rfl rfl rfl).1,
   fun hmd => (save_title_rule envOK ⟨[], []⟩ "c1" "u1"
      [[("role", Val.str "user"), ("content", Val.str "What are the risks?")]]
      (some [("title", Val.str "Custom")]) "T1" "T2"
      ⟨"u1", "c1", Val.str "Custom", 1, "T1", "T2", Val.str "auto",
        Val.str "What are the risks?", "u1/c1.json"⟩ rfl rfl rfl).2.2.1 _ hmd⟩

end AgustoStorage

namespace AgustoStorage

/-- **C8**: with no transient failures, `delete_chat_session` reports
failure when the blob is absent (returning without touching the state),
reports failure when the blob exists but the index row is absent, and —
after a successful delete — a second delete of the same keys reports
failure rather than success. -/
theorem delete_not_found_fails (env : Env) (st : StorageState) (cid uid : String)
    (hbd : env.blobDeleteOk = true) (htd : env.tableDeleteOk = true) :
    (st.blobs.lookup (blobNameFor cid uid) = none →
        delete_chat_session true env st cid uid = (false, st)) ∧
    (∀ doc, st.blobs.lookup (blobNameFor cid uid) = some doc →
        (¬ ∃ e ∈ st.table, e.partitionKey = uid ∧ e.rowKey = cid) →
        (delete_chat_session true env st cid uid).1 = false) ∧
    ((delete_chat_session true env st cid uid).1 = true →
        (delete_chat_session true env
          (delete_chat_session true env st cid uid).2 cid uid).1 = false) := by
  refine ⟨?_, ?_, ?_⟩
  · intro hnone
    simp [delete_chat_session, hbd, hnone]
  · intro doc hdoc hex
    simp [delete_chat_session, hbd, htd, hdoc, hex]
  · intro hsucc
    cases hlk : st.blobs.lookup (blobNameFor cid uid) with
    | none => simp [delete_chat_session, hbd, hlk] at hsucc
    | some doc =>
      by_cases hex : ∃ e ∈ st.table, e.partitionKey = uid ∧ e.rowKey = cid
      · have hpost : (delete_chat_session true env st cid uid).2.blobs =
            st.blobs.filter (fun p => p.1 ≠ blobNameFor cid uid) := by
          simp [delete_chat_session, hbd, htd, hlk, hex]
        have hlk2 : ((delete_chat_session true env st cid uid).2.blobs).lookup
            (blobNameFor cid uid) = none := by
          rw [hpost]
          exact lookup_filter_out _ _
        generalize (delete_chat_session true env st cid uid).2 = st2 at hlk2 ⊢
        simp [delete_chat_session, hbd, hlk2]
      · simp [delete_chat_session, hbd, htd, hlk, hex] at hsucc

/-- Witness for the C8 theorem: deleting a never-saved session from an
empty store fails. -/
theorem delete_not_found_fails_witness :
    delete_chat_session true envOK ⟨[], []⟩ "c1" "u1" = (false, ⟨[], []⟩) :=
  (delete_not_found_fails envOK ⟨[], []⟩ "c1" "u1" rfl rfl).1 rfl

/-- **C9**: a save of a non-empty messages list whose final element has no
`'content'` key writes the transcript blob, then fails while building the
index record: `save_chat_session` returns `False` although the blob is in
the store and the index table is unchanged — so a `False` result does not
imply that no blob was written. -/
theorem save_false_blob_written (env : Env) (st : StorageState) (cid uid : String)
    (msgs : List Msg) (md : Option (List (String × Val))) (cN uN : String) (m : Msg)
    (hbp : env.blobPutOk = true) (hlast : msgs.getLast? = some m)
    (hnc : m.lookup "content" = none) :
    (save_chat_session true env st cid uid msgs md cN uN).1 = false ∧
    (save_chat_session true env st cid uid msgs md cN uN).2.blobs.lookup
        (blobNameFor cid uid) = some (chatDataVal cid uid msgs cN uN md) ∧
    (save_chat_session true env st cid uid msgs md cN uN).2.table = st.table := by
  have hlm : lastMessagePreview msgs = .error () := by
    simp [lastMessagePreview, hlast, hnc]
  have hbe : buildEntity cid uid msgs md cN uN = .error () := by
    unfold buildEntity
    cases ht : deriveChatTitle msgs md with
    | error err =>
      cases err
      simp only [Bind.bind, Except.bind]
    | ok title =>
      simp only [Bind.bind, Except.bind, hlm, Functor.map, Except.map]
  refine ⟨?_, ?_, ?_⟩
  · simp [save_chat_session, hbp, hbe]
  · simp [save_chat_session, hbp, hbe, lookup_blobUpsert_self]
  · simp [save_chat_session, hbp, hbe]

/-- Witness for the C9 theorem: one assistant message lacking a content
key. -/
theorem save_false_blob_written_witness :
    (save_chat_session true envOK ⟨[], []⟩ "c1" "u1"
        [[("role", Val.str "assistant")]] none "T1" "T2").1 = false ∧
    (save_chat_session true envOK ⟨[], []⟩ "c1" "u1"
        [[("role", Val.str "assistant")]] none "T1" "T2").2.blobs.lookup
        (blobNameFor "c1" "u1") =
      some (chatDataVal "c1" "u1" [[("role", Val.str "assistant")]] "T1" "T2" none) ∧
    (save_chat_session true envOK ⟨[], []⟩ "c1" "u1"
        [[("role", Val.str "assistant")]] none "T1" "T2").2.table = ([] : List Entity) :=
  save_false_blob_written envOK ⟨[], []⟩ "c1" "u1"
    [[("role", Val.str "assistant")]] none "T1" "T2" [("role", Val.str "assistant")]
    rfl rfl rfl

/-- **C10**: after a successful save, the transcript blob written in that
call and the index record upserted in that call are string-equal on both
timestamps: the blob's `created_at`/`updated_at` fields are exactly the
entity's `CreatedAt`/`UpdatedAt` attributes. -/
theorem save_timestamp_consistency (env : Env) (st : StorageState) (cid uid : String)
    (msgs : List Msg) (md : Option (List (String × Val))) (cN uN : String)
    (hsave : (save_chat_session true env st cid uid msgs md cN uN).1 = true) :
    ∃ v e,
      (save_chat_session true env st cid uid msgs md cN uN).2.blobs.lookup
          (blobNameFor cid uid) = some v ∧
      (save_chat_session true env st cid uid msgs md cN uN).2.table.head? = some e ∧
      e.partitionKey = uid ∧ e.rowKey = cid ∧
      dictGet "created_at" v = some (.str e.createdAt) ∧
      dictGet "updated_at" v = some (.str e.updatedAt) := by
  rcases save_true_elim env st cid uid msgs md cN uN hsave with ⟨hbp, htu, e, hbe, heq⟩
  rcases buildEntity_ok_elim cid uid msgs md cN uN e hbe with ⟨title, lastMsg, ht, hl, rfl⟩
  refine ⟨chatDataVal cid uid msgs cN uN md,
          { partitionKey := uid
            rowKey := cid
            chatTitle := title
            messageCount := msgs.length
            createdAt := cN
            updatedAt := uN
            searchMode := deriveSearchMode md
            lastMessage := lastMsg
            blobPath := uid ++ "/" ++ cid ++ ".json" }, ?_, ?_, rfl, rfl, rfl, rfl⟩
  · rw [heq]
    exact lookup_blobUpsert_self _ _ _
  · rw [heq]
    rfl

/-- Witness for the C10 theorem at a concrete successful save. -/
theorem save_timestamp_consistency_witness :
    ∃ v e,
      (save_chat_session true envOK ⟨[], []⟩ "c1" "u1" [] none "T1" "T2").2.blobs.lookup
          (blobNameFor "c1" "u1") = some v ∧
      (save_chat_session true envOK ⟨[], []⟩ "c1" "u1" [] none "T1" "T2").2.table.head? =
        some e ∧
      e.partitionKey = "u1" ∧ e.rowKey = "c1" ∧
      dictGet "created_at" v = some (.str e.createdAt) ∧
      dictGet "updated_at" v = some (.str e.updatedAt) :=
  save_timestamp_consistency envOK ⟨[], []⟩ "c1" "u1" [] none "T1" "T2" rfl

end AgustoStorage

namespace AgustoStorage

/-- Witness for the C7 theorem: the length bound, membership and
sortedness at a concrete two-row store with `limit = 1`. -/
theorem list_user_chats_bounded_partition_sorted_witness :
    (list_user_chats true envOK
        ⟨[], [⟨"u", "a", .str "t1", 1, "c1", "2024-06-01T00:00:00+00:00", .str "auto", .str "l1", "u/a.json"⟩]⟩
        "u" 1).length ≤ 1 ∧
    (∀ s ∈ list_user_chats true envOK
        ⟨[], [⟨"u", "a", .str "t1", 1, "c1", "2024-06-01T00:00:00+00:00", .str "auto", .str "l1", "u/a.json"⟩]⟩
        "u" 1,
        ∃ e, e ∈ (⟨[], [⟨"u", "a", .str "t1", 1, "c1", "2024-06-01T00:00:00+00:00", .str "auto", .str "l1", "u/a.json"⟩]⟩ : StorageState).table ∧
          e.partitionKey = "u" ∧ entityToSummary e = s) ∧
    (list_user_chats true envOK
        ⟨[], [⟨"u", "a", .str "t1", 1, "c1", "2024-06-01T00:00:00+00:00", .str "auto", .str "l1", "u/a.json"⟩]⟩
        "u" 1).Pairwise summGE :=
  list_user_chats_bounded_partition_sorted true envOK
    ⟨[], [⟨"u", "a", .str "t1", 1, "c1", "2024-06-01T00:00:00+00:00", .str "auto", .str "l1", "u/a.json"⟩]⟩
    "u" 1

end AgustoStorage
